import Mathlib

/-!
Verification of the task-orchestration core of the agent system
(`src/core/task.py`, `src/core/system.py`, and the `AgentSystem` class of
`src/ok.py`): the priority queue (`add_task` / `get_next_task`), the
dispatch-and-retry logic (`process_task`), and the status/performance
queries (`get_system_status`, `get_agent_performance`).

Modelling conventions:
* `queue.PriorityQueue` is a binary min-heap over tuples
  `(priority.value, count, task)`; `get` returns the entry with the
  smallest tuple.  We model the heap's contents as a list of entries and
  `get` as extraction of the minimum with respect to the lexicographic
  order on `(priority.value, count)` (on a full tie the earliest-inserted
  entry is taken; with the strictly increasing tiebreaker counts produced
  by `add_task`, full ties never arise).
* `time.monotonic()` (the tiebreaker clock) and `datetime.datetime.now()`
  (timestamps) are modelled by a single natural-number clock stored in the
  system state that strictly increases at every reading, which is the
  behaviour the code relies on.
* The Python `dict` `completed_tasks` is modelled as an insertion-ordered
  association list; assignment `d[k] = v` updates the existing entry in
  place or appends a fresh one.
* Agent objects are irrelevant to the orchestration logic: only the set of
  registered names (`self.agents` keys) and the outcome of
  `agent.invoke(description)` matter.  The registry is a list of names and
  the executor is a parameter `invoke : String → String → Except String
  String` (`Except.error` models a raised exception).
* `process_task` returns, besides the updated system state, the final
  state of the (mutated, in Python) task object and an instrumentation
  flag recording whether `agent.invoke` was actually called.
-/

namespace AgentSys

/-- `TaskPriority` enum from `src/core/task.py` (`LOW=1 … CRITICAL=4`). -/
inductive TaskPriority
  | LOW
  | MEDIUM
  | HIGH
  | CRITICAL
deriving DecidableEq, Repr

/-- Numeric `.value` of the `TaskPriority` enum members. -/
def TaskPriority.value : TaskPriority → Nat
  | .LOW => 1
  | .MEDIUM => 2
  | .HIGH => 3
  | .CRITICAL => 4

/-- `TaskStatus` enum from `src/core/task.py`. -/
inductive TaskStatus
  | PENDING
  | IN_PROGRESS
  | COMPLETED
  | FAILED
  | NEEDS_HUMAN_INTERVENTION
deriving DecidableEq, Repr

/-- The `Task` dataclass from `src/core/task.py`.  Timestamps are clock
readings (naturals); `result` and `error` are `Option String`. -/
structure Task where
  id : String
  description : String
  agent_name : String
  priority : TaskPriority
  status : TaskStatus
  created_at : Nat
  updated_at : Nat
  dependencies : List String
  result : Option String
  error : Option String
  retries : Nat
  max_retries : Nat
deriving DecidableEq, Repr

/-- A priority-queue entry `(task.priority.value, count, task)` as put by
`add_task`. -/
abbrev QEntry := Nat × Nat × Task

/-- The mutable state of the `AgentSystem` class that the orchestration
core reads and writes: the priority queue, the completed-task ledger, the
registered agent names, and the clock (see module docstring). -/
structure AgentSystem where
  task_queue : List QEntry
  completed_tasks : List (String × Task)
  agents : List String
  clock : Nat
deriving DecidableEq, Repr

/-- Heap order on queue entries: lexicographic on
`(priority.value, count)`; the task component is never compared (the
strictly increasing counts keep it unreachable, as in the Python tuple
comparison). -/
def entryLE (a b : QEntry) : Prop :=
  a.1 < b.1 ∨ (a.1 = b.1 ∧ a.2.1 ≤ b.2.1)

instance (a b : QEntry) : Decidable (entryLE a b) := by
  unfold entryLE; infer_instance

/-- Extraction of the minimum entry from the modelled heap: returns the
least entry under `entryLE` (leftmost on full ties) and the remaining
entries.  `none` on an empty queue. -/
def popMin : List QEntry → Option (QEntry × List QEntry)
  | [] => none
  | e :: es =>
    match popMin es with
    | none => some (e, [])
    | some (m, rest) =>
      if entryLE e m then some (e, es) else some (m, e :: rest)

/-- Python-`dict` lookup `d[k]` / `k in d` on the ledger. -/
def dictGet (d : List (String × Task)) (k : String) : Option Task :=
  match d.find? (fun kv => kv.1 == k) with
  | some kv => some kv.2
  | none => none

/-- Python-`dict` assignment `d[k] = v` on the ledger: update in place if
the key is present, append otherwise. -/
def dictSet (d : List (String × Task)) (k : String) (v : Task) :
    List (String × Task) :=
  if d.any (fun kv => kv.1 == k) then
    d.map (fun kv => if kv.1 == k then (k, v) else kv)
  else
    d ++ [(k, v)]

/-- Python `d.values()` on the ledger. -/
def dictValues (d : List (String × Task)) : List Task :=
  d.map (fun kv => kv.2)

/-- `AgentSystem.add_task` (src/ok.py:910): stamps the current monotonic
clock as the tiebreaker `count` and puts `(priority.value, count, task)`
on the queue. -/
def add_task (s : AgentSystem) (task : Task) : AgentSystem :=
  { s with
    task_queue := s.task_queue ++ [(task.priority.value, s.clock, task)],
    clock := s.clock + 1 }

/-- `AgentSystem.get_next_task` (src/ok.py:917): pops the heap minimum,
or returns `none` when the queue is empty. -/
def get_next_task (s : AgentSystem) : Option Task × AgentSystem :=
  match popMin s.task_queue with
  | none => (none, s)
  | some (e, rest) => (some e.2.2, { s with task_queue := rest })

/-- The dependency check opening `process_task` (src/ok.py:931-932): every
`dep_id` in `task.dependencies` must be a ledger key whose entry has
status `COMPLETED`. -/
def isReady (task : Task) (ledger : List (String × Task)) : Bool :=
  task.dependencies.all (fun dep_id =>
    match dictGet ledger dep_id with
    | none => false
    | some t => t.status == TaskStatus.COMPLETED)

/-- Result of one `process_task` call: the updated system state, the final
state of the task object, and whether `agent.invoke` was called. -/
structure ProcResult where
  sys : AgentSystem
  task : Task
  invoked : Bool
deriving DecidableEq, Repr

/-- The `except` branch of `process_task` (src/ok.py:960-977): mark FAILED
with the error message and a fresh `updated_at`; then either re-enqueue as
PENDING with `retries + 1` (when `retries < max_retries`) or mark
NEEDS_HUMAN_INTERVENTION.  Note that neither branch writes the ledger. -/
def failBranch (s : AgentSystem) (t : Task) (e : String) (invoked : Bool) :
    ProcResult :=
  let t1 : Task := { t with
    status := TaskStatus.FAILED, error := some e, updated_at := s.clock }
  let s1 : AgentSystem := { s with clock := s.clock + 1 }
  if t1.retries < t1.max_retries then
    let t2 : Task := { t1 with
      retries := t1.retries + 1, status := TaskStatus.PENDING }
    { sys := add_task s1 t2, task := t2, invoked := invoked }
  else
    let t2 : Task := { t1 with status := TaskStatus.NEEDS_HUMAN_INTERVENTION }
    { sys := s1, task := t2, invoked := invoked }

/-- `AgentSystem.process_task` (src/ok.py:927-977).  Dependency-gate
branch: bump `retries`, re-enqueue, return.  Otherwise mark IN_PROGRESS,
look up the agent (a missing agent raises `ValueError`, caught by the
`except` branch), run `invoke`; on success record result, mark COMPLETED
and write the ledger; an `invoke` exception also goes to the `except`
branch. -/
def process_task (invoke : String → String → Except String String)
    (s : AgentSystem) (task : Task) : ProcResult :=
  if isReady task s.completed_tasks then
    let t1 : Task := { task with
      status := TaskStatus.IN_PROGRESS, updated_at := s.clock }
    let s1 : AgentSystem := { s with clock := s.clock + 1 }
    if s1.agents.contains t1.agent_name then
      match invoke t1.agent_name t1.description with
      | Except.ok r =>
        let t2 : Task := { t1 with
          result := some r, status := TaskStatus.COMPLETED,
          updated_at := s1.clock }
        let s2 : AgentSystem := { s1 with
          clock := s1.clock + 1,
          completed_tasks := dictSet s1.completed_tasks t2.id t2 }
        { sys := s2, task := t2, invoked := true }
      | Except.error e => failBranch s1 t1 e true
    else
      failBranch s1 t1 ("No agent found with name: " ++ t1.agent_name) false
  else
    let t1 : Task := { task with retries := task.retries + 1 }
    { sys := add_task s t1, task := t1, invoked := false }

/-- The task counts in the dictionary returned by
`AgentSystem.get_system_status` (src/ok.py:1129-1147). -/
structure SystemStatus where
  pending : Nat
  completed : Nat
  failed : Nat
  needs_intervention : Nat
deriving DecidableEq, Repr

/-- `AgentSystem.get_system_status` (src/ok.py:1129-1147): counts the
queue size and the ledger entries by status.  The method only reads the
state, so the model returns the state unchanged alongside the counts. -/
def get_system_status (s : AgentSystem) : SystemStatus × AgentSystem :=
  ({ pending := s.task_queue.length,
     completed := ((dictValues s.completed_tasks).filter
       (fun t => t.status == TaskStatus.COMPLETED)).length,
     failed := ((dictValues s.completed_tasks).filter
       (fun t => t.status == TaskStatus.FAILED)).length,
     needs_intervention := ((dictValues s.completed_tasks).filter
       (fun t => t.status == TaskStatus.NEEDS_HUMAN_INTERVENTION)).length },
   s)

/-- The dictionary returned by `AgentSystem.get_agent_performance`
(src/ok.py:1149-1171).  The Python ratios are rationals here. -/
structure AgentPerformance where
  agent_name : String
  total_tasks : Nat
  completed_tasks : Nat
  failed_tasks : Nat
  success_rate : ℚ
  average_processing_time : ℚ
deriving DecidableEq, Repr

/-- `AgentSystem.get_agent_performance` (src/ok.py:1149-1171): raises
`ValueError` (here `Except.error`) when the name is not a registered
agent; otherwise filters the ledger by `agent_name`, counts COMPLETED and
FAILED, and averages `updated_at - created_at` over the COMPLETED tasks,
both divisions guarded against the empty list exactly as in the source. -/
def get_agent_performance (s : AgentSystem) (agent_name : String) :
    Except String AgentPerformance :=
  if ¬ s.agents.contains agent_name then
    Except.error ("No agent found with name: " ++ agent_name)
  else
    let agent_tasks := (dictValues s.completed_tasks).filter
      (fun t => t.agent_name == agent_name)
    let completed := agent_tasks.filter
      (fun t => t.status == TaskStatus.COMPLETED)
    let failed := agent_tasks.filter
      (fun t => t.status == TaskStatus.FAILED)
    let avg_time : ℚ :=
      if completed.length = 0 then 0
      else ((completed.map
        (fun t => (t.updated_at : ℚ) - (t.created_at : ℚ))).sum) /
        (completed.length : ℚ)
    Except.ok
      { agent_name := agent_name,
        total_tasks := agent_tasks.length,
        completed_tasks := completed.length,
        failed_tasks := failed.length,
        success_rate :=
          if agent_tasks.length = 0 then 0
          else (completed.length : ℚ) / (agent_tasks.length : ℚ),
        average_processing_time := avg_time }

/-- The dispatch loop of `AgentSystem.start` (src/ok.py:991-999) restricted
to the orchestration core: repeatedly `get_next_task` then `process_task`
until the queue is empty (or fuel runs out).  It accumulates the number of
executor invocations and remembers the last processed task. -/
def runLoop (invoke : String → String → Except String String) :
    Nat → AgentSystem → Nat → Option Task → AgentSystem × Nat × Option Task
  | 0, s, attempts, last => (s, attempts, last)
  | fuel + 1, s, attempts, last =>
    match get_next_task s with
    | (none, s1) => (s1, attempts, last)
    | (some t, s1) =>
      let r := process_task invoke s1 t
      runLoop invoke fuel r.sys
        (attempts + (if r.invoked then 1 else 0)) (some r.task)

/-! ### Concrete fixtures used by counterexamples and witnesses -/

/-- A CRITICAL-priority task with no dependencies. -/
def taskA : Task :=
  { id := "A", description := "da", agent_name := "sales",
    priority := TaskPriority.CRITICAL, status := TaskStatus.PENDING,
    created_at := 0, updated_at := 0, dependencies := [], result := none,
    error := none, retries := 0, max_retries := 3 }

/-- A LOW-priority task with no dependencies. -/
def taskB : Task := { taskA with id := "B", priority := TaskPriority.LOW }

/-- A task whose retry budget is already exhausted (`retries = max_retries`). -/
def taskC : Task := { taskA with id := "C", retries := 3, max_retries := 3 }

/-- A task at its retry budget that waits on a dependency never present in
the ledger. -/
def taskD : Task :=
  { taskA with id := "D", dependencies := ["x"], retries := 2, max_retries := 2 }

/-- A fresh MEDIUM-priority task with `max_retries = 2`, as in the
specification scenario for the retry bound. -/
def taskE : Task :=
  { taskA with id := "E", priority := TaskPriority.MEDIUM, max_retries := 2 }

/-- A MEDIUM-priority task used for FIFO tie-break tests. -/
def taskF : Task := { taskA with id := "F", priority := TaskPriority.MEDIUM }

/-- A second MEDIUM-priority task used for FIFO tie-break tests. -/
def taskG : Task := { taskA with id := "G", priority := TaskPriority.MEDIUM }

/-- An empty system with one registered agent name. -/
def sys0 : AgentSystem :=
  { task_queue := [], completed_tasks := [], agents := ["sales"], clock := 0 }

/-- The system state right after enqueuing `taskE` into `sys0`. -/
def sysE : AgentSystem := { sys0 with task_queue := [(2, 0, taskE)], clock := 1 }

/-- An executor that raises on every call. -/
def failingInvoke : String → String → Except String String :=
  fun _ _ => Except.error "boom"

/-! ### Claim theorems -/

/-- Claim C1: the specification demands that a higher numeric `priority` value
dequeues first, but `add_task` puts `(priority.value, count, task)` into a
Python `PriorityQueue`, a min-heap that retrieves the SMALLEST tuple
first.  At the concrete failing input (ready tasks `taskA` = CRITICAL and
`taskB` = LOW, enqueued in either order), `get_next_task` returns the LOW
task first both times, contradicting the claimed ordering. -/
theorem c1_min_heap_dequeues_low_priority_first :
    taskB.priority.value < taskA.priority.value ∧
    (get_next_task (add_task (add_task sys0 taskA) taskB)).1 = some taskB ∧
    (get_next_task (add_task (add_task sys0 taskB) taskA)).1 = some taskB := by
  decide

/-- Claim C2: the claim says every terminal transition is recorded in the
Ledger, but the escalation branch of `process_task` only sets
`status = NEEDS_HUMAN_INTERVENTION` and never assigns
`completed_tasks[task.id]`; the only ledger write in `process_task` is on
the COMPLETED path.  At the concrete failing input (`taskC`, whose budget
is exhausted, with an always-raising executor) the task ends terminal with
its error set while the ledger stays empty — even though
`get_system_status` expects to find such tasks in the ledger when counting
`needs_intervention`. -/
theorem c2_escalated_task_never_written_to_ledger :
    (process_task failingInvoke sys0 taskC).task.status =
      TaskStatus.NEEDS_HUMAN_INTERVENTION ∧
    (process_task failingInvoke sys0 taskC).task.error = some "boom" ∧
    (process_task failingInvoke sys0 taskC).sys.completed_tasks = [] := by
  decide

/-- Counterexample for C3: the dependency-not-ready branch of `process_task`
increments `retries` with no bound check, so a PENDING task can exceed its
`max_retries`.  Concretely, `taskD` has `retries = max_retries = 2` and an
unmet dependency; one `process_task` call leaves it PENDING with
`retries = 3 > 2`, and nothing forces NEEDS_HUMAN_INTERVENTION. -/
theorem c3_dep_branch_exceeds_budget_counterexample :
    (process_task failingInvoke sys0 taskD).task.retries = 3 ∧
    (process_task failingInvoke sys0 taskD).task.max_retries = 2 ∧
    (process_task failingInvoke sys0 taskD).task.status = TaskStatus.PENDING := by
  decide

/-- Amended claim C3: `retries` is monotonically non-decreasing under
`process_task`, and on the executor path (dependency gate passed) the
budget is respected: whenever the task comes out PENDING its `retries` is
at most `max_retries`.  Only the dependency-not-ready branch can push
`retries` past the budget. -/
theorem c3_retry_budget_respected_on_ready_path
    (invoke : String → String → Except String String)
    (s : AgentSystem) (t : Task)
    (h : isReady t s.completed_tasks = true) :
    t.retries ≤ (process_task invoke s t).task.retries ∧
    ((process_task invoke s t).task.status = TaskStatus.PENDING →
      (process_task invoke s t).task.retries ≤
        (process_task invoke s t).task.max_retries) := by
  simp only [process_task, h, if_true]
  by_cases hag : s.agents.contains t.agent_name
  · simp only [hag, if_true]
    cases hinv : invoke t.agent_name t.description with
    | ok r => simp [failBranch]
    | error e =>
      simp only [failBranch]
      by_cases hlt : t.retries < t.max_retries
      · simp [hlt]
        omega
      · simp [hlt]
  · simp only [hag, if_false]
    simp only [failBranch]
    by_cases hlt : t.retries < t.max_retries
    · simp [hlt]
      omega
    · simp [hlt]

/-- Witness for the amended C3 at a concrete input: a ready task below
its retry budget. -/
theorem c3_retry_budget_respected_witness :
    isReady taskA sys0.completed_tasks = true ∧
    (taskA.retries ≤ (process_task failingInvoke sys0 taskA).task.retries ∧
     ((process_task failingInvoke sys0 taskA).task.status = TaskStatus.PENDING →
       (process_task failingInvoke sys0 taskA).task.retries ≤
         (process_task failingInvoke sys0 taskA).task.max_retries)) :=
  ⟨by decide,
   c3_retry_budget_respected_on_ready_path failingInvoke sys0 taskA (by decide)⟩

/-- Claim C5: a task whose dependencies are not all COMPLETED in the ledger is
never started: when `isReady` is false, `process_task` leaves the status
unchanged (in particular it never becomes IN_PROGRESS) and does not call
the executor; conversely the executor runs only when every dependency id
is in the ledger with status COMPLETED. -/
theorem c5_dependency_gate_blocks_dispatch
    (invoke : String → String → Except String String)
    (s : AgentSystem) (t : Task) :
    (isReady t s.completed_tasks = false →
      (process_task invoke s t).task.status = t.status ∧
      (process_task invoke s t).invoked = false) ∧
    ((process_task invoke s t).invoked = true →
      isReady t s.completed_tasks = true) := by
  constructor
  · intro h
    simp [process_task, h]
  · intro hinv
    by_contra h
    have h' : isReady t s.completed_tasks = false := by
      cases hr : isReady t s.completed_tasks with
      | true => exact absurd hr h
      | false => rfl
    simp [process_task, h'] at hinv

/-- Witness for C5 at a concrete input: `taskD` waits on the dependency "x",
absent from the empty ledger, so it stays PENDING and the executor is not
called. -/
theorem c5_dependency_gate_witness :
    ((isReady taskD sys0.completed_tasks = false →
      (process_task failingInvoke sys0 taskD).task.status = taskD.status ∧
      (process_task failingInvoke sys0 taskD).invoked = false) ∧
    ((process_task failingInvoke sys0 taskD).invoked = true →
      isReady taskD sys0.completed_tasks = true)) ∧
    isReady taskD sys0.completed_tasks = false :=
  ⟨c5_dependency_gate_blocks_dispatch failingInvoke sys0 taskD, by decide⟩

/-- Claim C9: frame condition of the dependency-not-ready branch: the returned
task differs from the input only in `retries` (incremented by one) —
status, error, result and the timestamps are untouched — the ledger and
the agent registry are unchanged, and the task is re-enqueued at its
original priority with a fresh tiebreaker count. -/
theorem c9_dep_branch_frame
    (invoke : String → String → Except String String)
    (s : AgentSystem) (t : Task)
    (h : isReady t s.completed_tasks = false) :
    (process_task invoke s t).task = { t with retries := t.retries + 1 } ∧
    (process_task invoke s t).sys.completed_tasks = s.completed_tasks ∧
    (process_task invoke s t).sys.agents = s.agents ∧
    (process_task invoke s t).sys.task_queue =
      s.task_queue ++
        [(t.priority.value, s.clock, { t with retries := t.retries + 1 })] := by
  simp [process_task, h, add_task]

/-- Witness for C9 at a concrete input: the not-ready `taskD` in the empty
system. -/
theorem c9_dep_branch_frame_witness :
    isReady taskD sys0.completed_tasks = false ∧
    ((process_task failingInvoke sys0 taskD).task =
      { taskD with retries := taskD.retries + 1 } ∧
     (process_task failingInvoke sys0 taskD).sys.completed_tasks =
      sys0.completed_tasks ∧
     (process_task failingInvoke sys0 taskD).sys.agents = sys0.agents ∧
     (process_task failingInvoke sys0 taskD).sys.task_queue =
      sys0.task_queue ++
        [(taskD.priority.value, sys0.clock,
          { taskD with retries := taskD.retries + 1 })]) :=
  ⟨by decide, c9_dep_branch_frame failingInvoke sys0 taskD (by decide)⟩

/-- Helper: extraction from a two-entry heap takes the first entry when it
is least. -/
theorem popMin_pair (e1 e2 : QEntry) (h : entryLE e1 e2) :
    popMin [e1, e2] = some (e1, [e2]) := by
  simp [popMin, h]

/-- Helper: the guarded-average computation times the length recovers the
sum, in both the empty and the non-empty case. -/
theorem avg_mul_len (l : List ℚ) :
    (if l.length = 0 then (0 : ℚ) else l.sum / (l.length : ℚ)) *
      (l.length : ℚ) = l.sum := by
  by_cases h : l.length = 0
  · have hnil : l = [] := List.length_eq_zero.mp h
    simp [hnil]
  · rw [if_neg h, div_mul_cancel₀]
    exact_mod_cast h

/-- Claim C6: among equal priorities the queue is FIFO: with tasks `a` then `b`
of equal priority enqueued into an empty queue, `get_next_task` yields `a`
then `b` (the tiebreaker count stamped by `add_task` strictly increases
between the two insertions); and a task `e` re-enqueued by the dependency
branch of `process_task` receives the current clock as its fresh
tiebreaker, so it dequeues behind a same-priority task `d` whose count is
older. -/
theorem c6_fifo_tiebreak
    (invoke : String → String → Except String String)
    (s : AgentSystem) (a b : Task) (c0 : Nat) (d e : Task)
    (hq : s.task_queue = [])
    (hp : a.priority.value = b.priority.value)
    (hde : e.priority.value = d.priority.value)
    (hc0 : c0 ≤ s.clock)
    (hnr : isReady e s.completed_tasks = false) :
    (get_next_task (add_task (add_task s a) b)).1 = some a ∧
    (get_next_task (get_next_task (add_task (add_task s a) b)).2).1 = some b ∧
    (get_next_task
      (process_task invoke
        { s with task_queue := [(d.priority.value, c0, d)] } e).sys).1 =
      some d := by
  have h1 : entryLE (a.priority.value, s.clock, a)
      (b.priority.value, s.clock + 1, b) := Or.inr ⟨hp, Nat.le_succ _⟩
  have h2 : entryLE (d.priority.value, c0, d)
      (e.priority.value, s.clock, { e with retries := e.retries + 1 }) :=
    Or.inr ⟨hde.symm, hc0⟩
  refine ⟨?_, ?_, ?_⟩
  · simp [get_next_task, add_task, hq, popMin_pair _ _ h1]
  · simp [get_next_task, add_task, hq, popMin_pair _ _ h1, popMin]
  · simp [process_task, hnr, add_task, get_next_task, popMin_pair _ _ h2]

/-- Witness for C6 at a concrete input: two MEDIUM tasks enqueued F then G
into the empty system, and the not-ready `taskD` re-enqueued behind the
same-priority (CRITICAL) `taskC` already queued with an older count. -/
theorem c6_fifo_tiebreak_witness :
    ((get_next_task (add_task (add_task sys0 taskF) taskG)).1 = some taskF ∧
     (get_next_task
       (get_next_task (add_task (add_task sys0 taskF) taskG)).2).1 =
       some taskG ∧
     (get_next_task
       (process_task failingInvoke
         { sys0 with task_queue := [(taskC.priority.value, 0, taskC)] }
         taskD).sys).1 = some taskC) :=
  c6_fifo_tiebreak failingInvoke sys0 taskF taskG 0 taskC taskD rfl rfl
    (by decide) (by decide) (by decide)

/-- Helper: two mapped views of the same list have equally long filters
when the predicate cannot distinguish the images. -/
theorem filter_length_map_congr {α β : Type} (g h : α → β) (p : β → Bool)
    (l : List α) (hp : ∀ x ∈ l, p (g x) = p (h x)) :
    ((l.map g).filter p).length = ((l.map h).filter p).length := by
  induction l with
  | nil => rfl
  | cons x xs ih =>
    have hx := hp x (by simp)
    have ih' := ih (fun y hy => hp y (by simp [hy]))
    simp only [List.map_cons, List.filter_cons]
    rw [← hx]
    cases hgx : p (g x) <;> simp [ih']

/-- Helper for the error-insensitivity half of the status-query claim:
the same system with every ledger task's `error` field overwritten by an
arbitrary assignment `f`. -/
def overwriteErrors (f : Task → Option String) (s : AgentSystem) : AgentSystem :=
  { s with
    completed_tasks :=
      s.completed_tasks.map (fun kv => (kv.1, { kv.2 with error := f kv.2 })) }

/-- Claim C8: `get_system_status` only reads the state (the model returns the
state unchanged), so two consecutive calls with no intervening activity
yield identical counts; and the counts are insensitive to the `error`
fields of the ledger tasks — rewriting every error in the ledger (with an
arbitrary assignment `f`) leaves the result unchanged, so the query cannot
fail however many tasks carry errors. -/
theorem c8_status_query_idempotent (s : AgentSystem) (f : Task → Option String) :
    (get_system_status s).2 = s ∧
    (get_system_status (get_system_status s).2).1 = (get_system_status s).1 ∧
    (get_system_status (overwriteErrors f s)).1 = (get_system_status s).1 := by
  refine ⟨rfl, rfl, ?_⟩
  simp only [get_system_status, overwriteErrors, dictValues, List.map_map,
    SystemStatus.mk.injEq]
  refine ⟨trivial, ?_, ?_, ?_⟩ <;>
    exact filter_length_map_congr _ _ _ _ (fun x _ => rfl)

/-- Claim C7: `get_agent_performance` fails (the model's `Except.error` stands
for the raised `ValueError`) exactly when the name is not registered; for
a registered agent it returns the total / completed / failed counts over
the ledger tasks of that agent, and its `average_processing_time` is the
guarded average of `updated_at - created_at` over the COMPLETED tasks:
multiplied by the number of COMPLETED tasks it recovers their summed
processing time (in both the empty and non-empty cases). -/
theorem c7_agent_performance_characterization (s : AgentSystem) (n : String) :
    (s.agents.contains n = false →
      ∃ err, get_agent_performance s n = Except.error err) ∧
    (s.agents.contains n = true →
      ∃ perf, get_agent_performance s n = Except.ok perf ∧
        perf.total_tasks = ((dictValues s.completed_tasks).filter
          (fun t => t.agent_name == n)).length ∧
        perf.completed_tasks = (((dictValues s.completed_tasks).filter
          (fun t => t.agent_name == n)).filter
          (fun t => t.status == TaskStatus.COMPLETED)).length ∧
        perf.failed_tasks = (((dictValues s.completed_tasks).filter
          (fun t => t.agent_name == n)).filter
          (fun t => t.status == TaskStatus.FAILED)).length ∧
        perf.average_processing_time * (perf.completed_tasks : ℚ) =
          ((((dictValues s.completed_tasks).filter
            (fun t => t.agent_name == n)).filter
            (fun t => t.status == TaskStatus.COMPLETED)).map
            (fun t => (t.updated_at : ℚ) - (t.created_at : ℚ))).sum) := by
  constructor
  · intro h
    have hnm : n ∉ s.agents := by simpa using h
    refine ⟨"No agent found with name: " ++ n, ?_⟩
    simp [get_agent_performance, hnm]
  · intro h
    have hmem : n ∈ s.agents := by simpa using h
    have hperf : get_agent_performance s n = Except.ok
        { agent_name := n,
          total_tasks := ((dictValues s.completed_tasks).filter
            (fun t => t.agent_name == n)).length,
          completed_tasks := (((dictValues s.completed_tasks).filter
            (fun t => t.agent_name == n)).filter
            (fun t => t.status == TaskStatus.COMPLETED)).length,
          failed_tasks := (((dictValues s.completed_tasks).filter
            (fun t => t.agent_name == n)).filter
            (fun t => t.status == TaskStatus.FAILED)).length,
          success_rate :=
            if ((dictValues s.completed_tasks).filter
                (fun t => t.agent_name == n)).length = 0 then 0
            else ((((dictValues s.completed_tasks).filter
              (fun t => t.agent_name == n)).filter
              (fun t => t.status == TaskStatus.COMPLETED)).length : ℚ) /
              (((dictValues s.completed_tasks).filter
                (fun t => t.agent_name == n)).length : ℚ),
          average_processing_time :=
            if (((dictValues s.completed_tasks).filter
                (fun t => t.agent_name == n)).filter
                (fun t => t.status == TaskStatus.COMPLETED)).length = 0 then 0
            else ((((dictValues s.completed_tasks).filter
              (fun t => t.agent_name == n)).filter
              (fun t => t.status == TaskStatus.COMPLETED)).map
              (fun t => (t.updated_at : ℚ) - (t.created_at : ℚ))).sum /
              ((((dictValues s.completed_tasks).filter
                (fun t => t.agent_name == n)).filter
                (fun t => t.status == TaskStatus.COMPLETED)).length : ℚ) } := by
      simp [get_agent_performance, hmem]
    refine ⟨_, hperf, rfl, rfl, rfl, ?_⟩
    have := avg_mul_len ((((dictValues s.completed_tasks).filter
      (fun t => t.agent_name == n)).filter
      (fun t => t.status == TaskStatus.COMPLETED)).map
      (fun t => (t.updated_at : ℚ) - (t.created_at : ℚ)))
    simpa [List.length_map] using this

/-- Witness for C7 at concrete inputs: the unregistered name gives the error,
the registered name gives the characterized record. -/
theorem c7_agent_performance_witness :
    (∃ err, get_agent_performance sys0 "nope" = Except.error err) ∧
    (∃ perf, get_agent_performance sys0 "sales" = Except.ok perf ∧
      perf.total_tasks = ((dictValues sys0.completed_tasks).filter
        (fun t => t.agent_name == "sales")).length ∧
      perf.completed_tasks = (((dictValues sys0.completed_tasks).filter
        (fun t => t.agent_name == "sales")).filter
        (fun t => t.status == TaskStatus.COMPLETED)).length ∧
      perf.failed_tasks = (((dictValues sys0.completed_tasks).filter
        (fun t => t.agent_name == "sales")).filter
        (fun t => t.status == TaskStatus.FAILED)).length ∧
      perf.average_processing_time * (perf.completed_tasks : ℚ) =
        ((((dictValues sys0.completed_tasks).filter
          (fun t => t.agent_name == "sales")).filter
          (fun t => t.status == TaskStatus.COMPLETED)).map
          (fun t => (t.updated_at : ℚ) - (t.created_at : ℚ))).sum) :=
  ⟨(c7_agent_performance_characterization sys0 "nope").1 (by decide),
   (c7_agent_performance_characterization sys0 "sales").2 (by decide)⟩

/-- Claim C10: a registered agent with no tasks in the ledger gets the all-zero
performance record; both divisions are guarded, so no error occurs. -/
theorem c10_no_tasks_zero_stats (s : AgentSystem) (n : String)
    (h1 : s.agents.contains n = true)
    (h2 : ∀ t ∈ dictValues s.completed_tasks, ¬ t.agent_name = n) :
    get_agent_performance s n = Except.ok
      { agent_name := n, total_tasks := 0, completed_tasks := 0,
        failed_tasks := 0, success_rate := 0,
        average_processing_time := 0 } := by
  have hfil : (dictValues s.completed_tasks).filter
      (fun t => t.agent_name == n) = [] := by
    rw [List.filter_eq_nil_iff]
    intro t ht
    simpa using h2 t ht
  have hmem : n ∈ s.agents := by simpa using h1
  simp [get_agent_performance, h1, hmem, hfil]

/-- Witness for C10 at a concrete input: the empty ledger of `sys0` and its
registered agent. -/
theorem c10_no_tasks_zero_stats_witness :
    sys0.agents.contains "sales" = true ∧
    dictValues sys0.completed_tasks = [] ∧
    get_agent_performance sys0 "sales" = Except.ok
      { agent_name := "sales", total_tasks := 0, completed_tasks := 0,
        failed_tasks := 0, success_rate := 0,
        average_processing_time := 0 } :=
  ⟨by decide, rfl,
   c10_no_tasks_zero_stats sys0 "sales" (by decide)
     (by intro t ht; simp [dictValues, sys0] at ht)⟩

/-- Helper: the dispatch loop stops immediately on an empty queue. -/
theorem runLoop_empty (invoke : String → String → Except String String)
    (fuel : Nat) (s : AgentSystem) (acc : Nat) (last : Option Task)
    (h : s.task_queue = []) : runLoop invoke fuel s acc last = (s, acc, last) := by
  cases fuel with
  | zero => rfl
  | succ n => simp [runLoop, get_next_task, h, popMin]

/-- Helper: the task state produced by the requeue branch of
`failBranch` — FAILED-then-PENDING with the error recorded, the timestamp
refreshed and the retry counter bumped. -/
def requeued (t : Task) (e : String) (clk : Nat) : Task :=
  { t with
    status := TaskStatus.PENDING,
    error := some e,
    updated_at := clk,
    retries := t.retries + 1 }

/-- Helper: invariant run of the loop on a single always-failing,
dependency-free task whose remaining budget is `k`: the loop makes exactly
`k + 1` further attempts, ends with an empty queue, and the last processed
task is NEEDS_HUMAN_INTERVENTION. -/
theorem runLoop_failing_aux (invoke : String → String → Except String String)
    (hf : ∀ a d, ∃ e, invoke a d = Except.error e) :
    ∀ (k fuel : Nat) (s : AgentSystem) (p c : Nat) (t : Task) (acc : Nat)
      (last : Option Task),
      t.dependencies = [] →
      s.agents.contains t.agent_name = true →
      s.task_queue = [(p, c, t)] →
      t.retries + k = t.max_retries →
      k + 1 ≤ fuel →
      (runLoop invoke fuel s acc last).2.1 = acc + k + 1 ∧
      (runLoop invoke fuel s acc last).1.task_queue = [] ∧
      ∃ u, (runLoop invoke fuel s acc last).2.2 = some u ∧
        u.status = TaskStatus.NEEDS_HUMAN_INTERVENTION := by
  intro k
  induction k with
  | zero =>
    intro fuel s p c t acc last hdep hag hq hret hfuel
    obtain ⟨e, he⟩ := hf t.agent_name t.description
    have hmem : t.agent_name ∈ s.agents := by simpa using hag
    have hnlt : ¬ t.retries < t.max_retries := by omega
    cases fuel with
    | zero => omega
    | succ fuel1 =>
      have hstep : runLoop invoke (fuel1 + 1) s acc last =
          runLoop invoke fuel1
            { s with task_queue := [], clock := s.clock + 2 }
            (acc + 1)
            (some { t with
                      status := TaskStatus.NEEDS_HUMAN_INTERVENTION,
                      error := some e,
                      updated_at := s.clock + 1 }) := by
        simp [runLoop, get_next_task, hq, popMin, process_task, isReady,
          hdep, hag, hmem, he, failBranch, hnlt]
      rw [hstep, runLoop_empty invoke fuel1 _ _ _ rfl]
      refine ⟨by simp, rfl, ?_⟩
      exact ⟨_, rfl, rfl⟩
  | succ k1 ih =>
    intro fuel s p c t acc last hdep hag hq hret hfuel
    obtain ⟨e, he⟩ := hf t.agent_name t.description
    have hmem : t.agent_name ∈ s.agents := by simpa using hag
    have hlt : t.retries < t.max_retries := by omega
    cases fuel with
    | zero => omega
    | succ fuel1 =>
      have hstep : runLoop invoke (fuel1 + 1) s acc last =
          runLoop invoke fuel1
            { s with
              task_queue := [(t.priority.value, s.clock + 2, requeued t e (s.clock + 1))],
              clock := s.clock + 3 }
            (acc + 1)
            (some (requeued t e (s.clock + 1))) := by
        simp [runLoop, get_next_task, hq, popMin, process_task, isReady,
          hdep, hag, hmem, he, failBranch, hlt, add_task, requeued]
      rw [hstep]
      have hres := ih fuel1
        { s with
          task_queue := [(t.priority.value, s.clock + 2, requeued t e (s.clock + 1))],
          clock := s.clock + 3 }
        t.priority.value (s.clock + 2)
        (requeued t e (s.clock + 1))
        (acc + 1)
        (some (requeued t e (s.clock + 1)))
        (by simp [requeued, hdep]) (by simpa [requeued] using hag) rfl
        (by simp [requeued]; omega) (by omega)
      refine ⟨?_, hres.2.1, hres.2.2⟩
      rw [hres.1]
      omega

/-- Claim C4: a dependency-free task with a registered agent whose executor
fails on every call, alone in the queue with a fresh retry counter, is
attempted exactly `max_retries + 1` times by the dispatch loop; the loop
then stops with an empty queue (the task is never re-enqueued after
escalation) and the task ends in NEEDS_HUMAN_INTERVENTION. -/
theorem c4_retry_bound (invoke : String → String → Except String String)
    (s : AgentSystem) (p c : Nat) (t : Task) (fuel : Nat)
    (hdep : t.dependencies = [])
    (hag : s.agents.contains t.agent_name = true)
    (hq : s.task_queue = [(p, c, t)])
    (hret : t.retries = 0)
    (hf : ∀ a d, ∃ e, invoke a d = Except.error e)
    (hfuel : t.max_retries + 1 ≤ fuel) :
    (runLoop invoke fuel s 0 none).2.1 = t.max_retries + 1 ∧
    (runLoop invoke fuel s 0 none).1.task_queue = [] ∧
    ∃ u, (runLoop invoke fuel s 0 none).2.2 = some u ∧
      u.status = TaskStatus.NEEDS_HUMAN_INTERVENTION := by
  have hres := runLoop_failing_aux invoke hf t.max_retries fuel s p c t 0 none
    hdep hag hq (by omega) (by omega)
  refine ⟨?_, hres.2.1, hres.2.2⟩
  rw [hres.1]
  omega

/-- Witness for C4 at a concrete input: `taskE` (`max_retries = 2`) alone in
the queue with the always-failing executor is attempted exactly 3 times
and escalates. -/
theorem c4_retry_bound_witness :
    (runLoop failingInvoke 3 sysE 0 none).2.1 = taskE.max_retries + 1 ∧
    (runLoop failingInvoke 3 sysE 0 none).1.task_queue = [] ∧
    ∃ u, (runLoop failingInvoke 3 sysE 0 none).2.2 = some u ∧
      u.status = TaskStatus.NEEDS_HUMAN_INTERVENTION :=
  c4_retry_bound failingInvoke sysE 2 0 taskE 3 rfl (by decide) rfl rfl
    (fun a d => ⟨"boom", rfl⟩) (by decide)

end AgentSys
